import Mathlib

/-!
Shallow embedding of the token lifecycle core of the rauthy identity
provider (file `rauthy-service/src/auth.rs`), together with theorems
settling the frozen claims about it.

Conventions of the embedding:
* stateful code threads an explicit `Store` value (auth codes, sessions,
  users, refresh token handles); database / cache writes are modelled as
  total state updates, database reads as lookups that may miss;
* fallible code returns `Except ErrorResponse` or the `Outcome` type
  below, whose `panicked` constructor stands for a Rust `unwrap` on
  `None` (or an out-of-bounds string split);
* functions of the repository that are not part of the given source
  (entity methods such as `Session::validate_user_expiry` or
  `User::validate_password`) enter as explicit function parameters, or,
  where their behaviour is fixed by the specification, as definitions
  whose doc comment starts with `Modelled from the spec:`;
* external library calls (SHA-256 plus base64url encoding, JWT signature
  validation) enter as explicit function parameters;
* timestamps are `Int` seconds (Rust `i64`), durations are `Nat`
  milliseconds; wrap-around casts (`as u64`) are written out explicitly.
-/

/-- The error kinds of `ErrorResponseType` in `rauthy-common`. -/
inductive ErrorResponseType
  | badRequest
  | unauthorized
  | sessionExpired
  | notFound
  | internal
deriving DecidableEq, Repr

/-- `ErrorResponse`: an error kind together with the user-visible message. -/
structure ErrorResponse where
  error : ErrorResponseType
  message : String
deriving DecidableEq, Repr

/-- Result of running a fallible handler: success, an `ErrorResponse`,
or a Rust panic (`unwrap` on `None`, out-of-bounds slicing). -/
inductive Outcome (α : Type)
  | ok (a : α)
  | err (e : ErrorResponse)
  | panicked
deriving DecidableEq, Repr

/-- `JwtType` tag of the custom claims (`Bearer`, `Id`, `Refresh`). -/
inductive JwtType
  | bearer
  | id
  | refresh
deriving DecidableEq, Repr

/-- The session state enum of `rauthy_models::entity::sessions`. -/
inductive SessionState
  | init
  | auth
  | loggedOut
  | unknown
deriving DecidableEq, Repr

/-- The fields of the `User` entity that the modelled functions touch.
`roles` is the raw comma-separated string as stored, `groups` its
optional counterpart, mirroring the entity. -/
structure User where
  id : String
  email : String
  password : Option String
  enabled : Bool
  user_expires : Option Int
  roles : String
  groups : Option String
  last_login : Option Int
  last_failed_login : Option Int
  failed_login_attempts : Option Int
deriving DecidableEq, Repr

/-- The `Session` entity fields used by `auth.rs`. -/
structure Session where
  id : String
  csrf_token : String
  user_id : Option String
  roles : Option String
  groups : Option String
  is_mfa : Bool
  state : SessionState
  exp : Int
  last_seen : Int
deriving DecidableEq, Repr

/-- The `AuthCode` entity: a single-use authorization code. -/
structure AuthCode where
  id : String
  user_id : String
  client_id : String
  session_id : Option String
  challenge : Option String
  challenge_method : Option String
  nonce : Option String
  scopes : List String
  exp : Int
deriving DecidableEq, Repr

/-- A persisted refresh token handle (`RefreshToken` entity): the last 49
characters of the issued JWT plus its binding data. -/
structure RefreshTokenEnt where
  id : String
  user_id : String
  nbf : Int
  exp : Int
  scope : Option String
  is_mfa : Bool
deriving DecidableEq, Repr

/-- The `Client` entity fields used by the modelled functions. -/
structure Client where
  id : String
  confidential : Bool
  enabled : Bool
  default_scopes : String
deriving DecidableEq, Repr

/-- A custom `Scope` entity (used for custom claim mapping). -/
structure ScopeEnt where
  name : String
  attr_include_access : Option String
  attr_include_id : Option String
deriving DecidableEq, Repr

/-- The arguments `TokenSet::from_user` receives; the token set itself is
built in `token_set.rs` (outside the given source), so the model records
exactly what the call in `auth.rs` hands over. -/
structure TokenSet where
  user_id : String
  client_id : String
  nonce : Option String
  scope : Option String
  is_mfa : Bool
deriving DecidableEq, Repr

/-- `TokenSet::from_user` as seen by its callers in `auth.rs`. -/
def TokenSet.from_user (u : User) (client_id : String) (nonce : Option String)
    (scope : Option String) (is_mfa : Bool) : TokenSet :=
  ⟨u.id, client_id, nonce, scope, is_mfa⟩

/-- The extractor principal (`rauthy_models::entity::principal`). -/
structure Principal where
  user_id : String
  email : Option String
  has_mfa_active : Bool
  has_session : Bool
  has_token : Bool
  roles : List String
deriving DecidableEq, Repr

/-- The backing store: auth codes, sessions, users and refresh token
handles, each addressed by its id field. -/
structure Store where
  auth_codes : List AuthCode
  sessions : List Session
  users : List User
  refresh_tokens : List RefreshTokenEnt
deriving DecidableEq, Repr

/-- `AuthCode::find`. -/
def AuthCode.find (st : Store) (idx : String) : Option AuthCode :=
  st.auth_codes.find? (fun c => c.id = idx)

/-- `AuthCode::delete`. -/
def AuthCode.delete (st : Store) (idx : String) : Store :=
  { st with auth_codes := st.auth_codes.filter (fun c => c.id ≠ idx) }

/-- `Session::find`. -/
def Session.find (st : Store) (sid : String) : Option Session :=
  st.sessions.find? (fun s => s.id = sid)

/-- `Session::save` (upsert by session id). -/
def Session.save (st : Store) (s : Session) : Store :=
  { st with sessions := s :: st.sessions.filter (fun x => x.id ≠ s.id) }

/-- `User::find` (lookup by user id). -/
def User.find (st : Store) (uid : String) : Option User :=
  st.users.find? (fun u => u.id = uid)

/-- `User::find_by_email`. -/
def User.find_by_email (st : Store) (email : String) : Option User :=
  st.users.find? (fun u => u.email = email)

/-- `User::save` (upsert by user id). -/
def User.save (st : Store) (u : User) : Store :=
  { st with users := u :: st.users.filter (fun x => x.id ≠ u.id) }

/-- `RefreshToken::find` (lookup by the persisted validation handle). -/
def RefreshTokenEnt.find (st : Store) (handle : String) : Option RefreshTokenEnt :=
  st.refresh_tokens.find? (fun r => r.id = handle)

/-- `RefreshToken::create`. -/
def RefreshTokenEnt.create (st : Store) (handle user_id : String) (nbf exp : Int)
    (scope : Option String) (is_mfa : Bool) : Store :=
  { st with refresh_tokens := ⟨handle, user_id, nbf, exp, scope, is_mfa⟩ :: st.refresh_tokens }

/-- `RefreshToken::save` (upsert by handle). -/
def RefreshTokenEnt.save (st : Store) (r : RefreshTokenEnt) : Store :=
  { st with refresh_tokens := r :: st.refresh_tokens.filter (fun x => x.id ≠ r.id) }

/-- Modelled from the spec: `RefreshToken::invalidate_all_for_user`
(entity method outside the given source) invalidates every refresh token
persisted for the given user (§4.7 "invalidate all refresh tokens for
the user"); modelled as removing them from the store. -/
def RefreshTokenEnt.invalidate_all_for_user (st : Store) (uid : String) : Store :=
  { st with refresh_tokens := st.refresh_tokens.filter (fun x => x.user_id ≠ uid) }

/-- No refresh token of the invalidated user survives
`invalidate_all_for_user`. -/
theorem RefreshTokenEnt.invalidate_all_for_user_spec (st : Store) (uid : String) :
    ∀ r ∈ (RefreshTokenEnt.invalidate_all_for_user st uid).refresh_tokens, r.user_id ≠ uid := by
  intro r hr
  simpa using (List.of_mem_filter hr)

/-- Deleting an auth code removes it from the store. -/
theorem AuthCode.find_delete_self (st : Store) (idx : String) :
    AuthCode.find (AuthCode.delete st idx) idx = none := by
  simp only [AuthCode.find, AuthCode.delete, List.find?_eq_none, decide_eq_true_eq]
  intro c hc
  have h := List.of_mem_filter hc
  simpa using h

/-- The PKCE verification block of `grant_type_code`
(`auth.rs` lines 720-749). `hashB64` stands for the external call chain
`base64_url_encode(sha256(verifier))` (`ring::digest` plus
`rauthy_common::utils::base64_url_encode`). The `unwrap` of
`challenge_method` when a challenge is present without a method is the
source's panic. -/
def pkce_check (hashB64 : String → String) (c : AuthCode)
    (code_verifier : Option String) : Outcome Unit :=
  match c.challenge with
  | none => .ok ()
  | some challenge =>
    match code_verifier with
    | none => .err ⟨.badRequest, "'code_verifier' is missing"⟩
    | some verifier =>
      match c.challenge_method with
      | none => .panicked
      | some m =>
        if m = "plain" then
          if challenge = verifier then .ok ()
          else .err ⟨.unauthorized, "'code_verifier' does not match the challenge"⟩
        else
          if challenge = hashB64 verifier then .ok ()
          else .err ⟨.unauthorized, "'code_verifier' does not match the challenge"⟩

/-- `grant_type_code` (`auth.rs` lines 656-782) from the auth-code fetch
onward; the preceding client lookup / secret / flow validation is taken
as already passed and provides `client_id`. Parameters:
`vue` is `Session::validate_user_expiry` (entity method outside the
given source; the source calls it twice, once guarded by `if let Err`
and once via `?`, which the model mirrors); `hashB64` as in
`pkce_check`; `now` is `OffsetDateTime::now_utc().unix_timestamp()`.
`User::find` and `Session::find` misses surface as errors through `?`
in the source; the model returns `notFound` errors for them. -/
def grant_type_code (hashB64 : String → String) (now : Int)
    (vue : Session → User → Except ErrorResponse Unit)
    (client_id : String) (code : Option String) (code_verifier : Option String)
    (st : Store) : Outcome TokenSet × Store :=
  match code with
  | none => (.err ⟨.badRequest, "'code' is missing"⟩, st)
  | some idx =>
    match AuthCode.find st idx with
    | none => (.err ⟨.unauthorized, "'auth_code' could not be found inside the cache"⟩, st)
    | some c =>
      if c.client_id ≠ client_id then
        (.err ⟨.unauthorized, "Wrong 'code' for client_id '" ++ client_id ++ "'"⟩, st)
      else if c.exp < now then
        (.err ⟨.sessionExpired, "The Authorization Code has expired"⟩, st)
      else
        match pkce_check hashB64 c code_verifier with
        | .panicked => (.panicked, st)
        | .err e => (.err e, st)
        | .ok _ =>
          match User.find st c.user_id with
          | none => (.err ⟨.notFound, "user not found"⟩, st)
          | some user =>
            let ts := TokenSet.from_user user c.client_id c.nonce
              (some (String.intercalate " " c.scopes)) true
            match c.session_id with
            | none => (.ok ts, AuthCode.delete st idx)
            | some sid =>
              match Session.find st sid with
              | none => (.err ⟨.notFound, "session not found"⟩, st)
              | some s0 =>
                let s1 : Session := { s0 with last_seen := now, state := SessionState.auth }
                match vue s1 user with
                | .error err => (.err err, AuthCode.delete st idx)
                | .ok _ =>
                  match vue s1 user with
                  | .error err => (.err err, st)
                  | .ok _ =>
                    let s2 : Session := { s1 with
                      user_id := some user.id
                      roles := some user.roles
                      groups := user.groups }
                    (.ok ts, AuthCode.delete (Session.save st s2) idx)

/-- C5 (amended): redeeming an authorization code that is missing from the
store, or bound to a different client_id, fails with `Unauthorized`; a
code bound to the requesting client whose embedded `exp` is past fails
with `SessionExpired` (not `Unauthorized`). -/
theorem c5_auth_code_redemption_failures
    (hashB64 : String → String) (now : Int)
    (vue : Session → User → Except ErrorResponse Unit)
    (client_id idx : String) (verifier : Option String) (st : Store) :
    (AuthCode.find st idx = none →
      (grant_type_code hashB64 now vue client_id (some idx) verifier st).fst =
        .err ⟨.unauthorized, "'auth_code' could not be found inside the cache"⟩) ∧
    (∀ c, AuthCode.find st idx = some c → c.client_id ≠ client_id →
      (grant_type_code hashB64 now vue client_id (some idx) verifier st).fst =
        .err ⟨.unauthorized, "Wrong 'code' for client_id '" ++ client_id ++ "'"⟩) ∧
    (∀ c, AuthCode.find st idx = some c → c.client_id = client_id → c.exp < now →
      (grant_type_code hashB64 now vue client_id (some idx) verifier st).fst =
        .err ⟨.sessionExpired, "The Authorization Code has expired"⟩) := by
  refine ⟨?_, ?_, ?_⟩
  · intro h
    simp [grant_type_code, h]
  · intro c hc hne
    simp [grant_type_code, hc, hne]
  · intro c hc heq hexp
    simp [grant_type_code, hc, heq, hexp]

/-- Auth code used by the C5 counterexample: expired at redemption time,
bound to the requesting client. -/
def c5_code : AuthCode :=
  ⟨"code1", "u1", "cl1", none, none, none, none, ["openid"], 10⟩

/-- Store holding only the expired code of the C5 counterexample. -/
def c5_store : Store := ⟨[c5_code], [], [], []⟩

/-- C5 counterexample: redeeming an expired authorization code (present in
the store and bound to the requesting client) fails with the
`SessionExpired` error kind, not `Unauthorized` as the claim states. -/
theorem c5_counterexample :
    (grant_type_code (fun s => s) 100 (fun _ _ => Except.ok ()) "cl1"
        (some "code1") none c5_store).fst =
      Outcome.err ⟨ErrorResponseType.sessionExpired, "The Authorization Code has expired"⟩ ∧
    ErrorResponseType.sessionExpired ≠ ErrorResponseType.unauthorized :=
  ⟨rfl, by decide⟩

/-- C5 witness: concrete runs hitting each of the three failure branches. -/
theorem c5_witness :
    (grant_type_code (fun s => s) 100 (fun _ _ => Except.ok ()) "cl1"
        (some "nosuch") none c5_store).fst =
      Outcome.err ⟨ErrorResponseType.unauthorized, "'auth_code' could not be found inside the cache"⟩ ∧
    (grant_type_code (fun s => s) 100 (fun _ _ => Except.ok ()) "other"
        (some "code1") none c5_store).fst =
      Outcome.err ⟨ErrorResponseType.unauthorized, "Wrong 'code' for client_id 'other'"⟩ ∧
    (grant_type_code (fun s => s) 100 (fun _ _ => Except.ok ()) "cl1"
        (some "code1") none c5_store).fst =
      Outcome.err ⟨ErrorResponseType.sessionExpired, "The Authorization Code has expired"⟩ := by
  refine ⟨?_, ?_, ?_⟩
  · exact (c5_auth_code_redemption_failures (fun s => s) 100 (fun _ _ => Except.ok ())
      "cl1" "nosuch" none c5_store).1 rfl
  · exact (c5_auth_code_redemption_failures (fun s => s) 100 (fun _ _ => Except.ok ())
      "other" "code1" none c5_store).2.1 c5_code rfl (by decide)
  · exact (c5_auth_code_redemption_failures (fun s => s) 100 (fun _ _ => Except.ok ())
      "cl1" "code1" none c5_store).2.2 c5_code rfl rfl (by decide)

/-- C1: once an authorization code has been successfully consumed (found,
bound to the requesting client, unexpired, PKCE passed, user found and a
token set minted) and the bound session has been fetched, the code is
deleted from the store whatever `validate_user_expiry` decides on the
bound session, the session error, if any, is propagated, and otherwise
the token set is returned. -/
theorem c1_code_deleted_regardless_of_session_update
    (hashB64 : String → String) (now : Int)
    (vue : Session → User → Except ErrorResponse Unit)
    (client_id idx sid : String) (verifier : Option String) (st : Store)
    (c : AuthCode) (user : User) (s0 : Session)
    (hfind : AuthCode.find st idx = some c)
    (hclient : c.client_id = client_id)
    (hexp : ¬ c.exp < now)
    (hpkce : pkce_check hashB64 c verifier = .ok ())
    (huser : User.find st c.user_id = some user)
    (hsid : c.session_id = some sid)
    (hsess : Session.find st sid = some s0) :
    AuthCode.find (grant_type_code hashB64 now vue client_id (some idx) verifier st).snd idx = none ∧
    (∀ e, vue { s0 with last_seen := now, state := SessionState.auth } user = .error e →
      (grant_type_code hashB64 now vue client_id (some idx) verifier st).fst = .err e) ∧
    (vue { s0 with last_seen := now, state := SessionState.auth } user = .ok () →
      (grant_type_code hashB64 now vue client_id (some idx) verifier st).fst =
        .ok (TokenSet.from_user user c.client_id c.nonce
          (some (String.intercalate " " c.scopes)) true)) := by
  cases hv : vue { s0 with last_seen := now, state := SessionState.auth } user with
  | error e =>
    have hred : grant_type_code hashB64 now vue client_id (some idx) verifier st =
        (.err e, AuthCode.delete st idx) := by
      simp [grant_type_code, hfind, hclient, hexp, hpkce, huser, hsid, hsess, hv]
    refine ⟨?_, ?_, ?_⟩
    · rw [hred]; exact AuthCode.find_delete_self st idx
    · intro e' he'
      injection he' with h
      subst h
      rw [hred]
    · intro hok; exact absurd hok (by simp)
  | ok u =>
    have hred : grant_type_code hashB64 now vue client_id (some idx) verifier st =
        (.ok (TokenSet.from_user user c.client_id c.nonce
            (some (String.intercalate " " c.scopes)) true),
          AuthCode.delete (Session.save st
            { s0 with
              last_seen := now
              state := SessionState.auth
              user_id := some user.id
              roles := some user.roles
              groups := user.groups }) idx) := by
      simp [grant_type_code, hfind, hclient, hexp, hpkce, huser, hsid, hsess, hv]
    refine ⟨?_, ?_, ?_⟩
    · rw [hred]
      exact AuthCode.find_delete_self _ idx
    · intro e' he'; exact absurd he' (by simp)
    · intro _; rw [hred]

/-- User of the C1 witness scenario. -/
def c1_user : User := ⟨"u1", "u1@x", some "h", true, none, "admin", none, none, none, none⟩

/-- Bound session of the C1 witness scenario. -/
def c1_session : Session := ⟨"s1", "csrf", none, none, none, false, SessionState.init, 0, 0⟩

/-- Auth code of the C1 witness scenario, bound to session `s1`. -/
def c1_code : AuthCode := ⟨"code1", "u1", "cl1", some "s1", none, none, none, ["openid"], 100⟩

/-- Store of the C1 witness scenario. -/
def c1_store : Store := ⟨[c1_code], [c1_session], [c1_user], []⟩

/-- C1 witness: a concrete successful redemption deletes the code and
returns the minted token set. -/
theorem c1_witness :
    AuthCode.find (grant_type_code (fun s => s) 50 (fun _ _ => Except.ok ()) "cl1"
        (some "code1") none c1_store).snd "code1" = none ∧
    (grant_type_code (fun s => s) 50 (fun _ _ => Except.ok ()) "cl1"
        (some "code1") none c1_store).fst =
      Outcome.ok (TokenSet.from_user c1_user "cl1" none (some "openid") true) := by
  have h := c1_code_deleted_regardless_of_session_update (fun s => s) 50
      (fun _ _ => Except.ok ()) "cl1" "code1" "s1" none c1_store c1_code c1_user c1_session
      rfl rfl (by decide) rfl rfl rfl rfl
  exact ⟨h.1, h.2.2 rfl⟩

/-- `pkce_check` with a `plain` challenge reduces to plain equality of
challenge and verifier. -/
theorem pkce_check_plain (hashB64 : String → String) (c : AuthCode) (v ch : String)
    (hch : c.challenge = some ch) (hm : c.challenge_method = some "plain") :
    pkce_check hashB64 c (some v) =
      (if ch = v then Outcome.ok ()
       else .err ⟨.unauthorized, "'code_verifier' does not match the challenge"⟩) := by
  simp [pkce_check, hch, hm]

/-- `pkce_check` with an `S256` challenge reduces to comparing the
challenge against `hashB64 verifier`. -/
theorem pkce_check_s256 (hashB64 : String → String) (c : AuthCode) (v ch : String)
    (hch : c.challenge = some ch) (hm : c.challenge_method = some "S256") :
    pkce_check hashB64 c (some v) =
      (if ch = hashB64 v then Outcome.ok ()
       else .err ⟨.unauthorized, "'code_verifier' does not match the challenge"⟩) := by
  simp [pkce_check, hch, hm]

/-- C3: for an authorization code carrying a PKCE challenge (found,
bound to the requesting client, unexpired): a missing `code_verifier`
fails with `BadRequest`; under method `plain` the exchange can succeed
only when the verifier equals the stored challenge and a mismatching
verifier fails with `Unauthorized` and the message
"'code_verifier' does not match the challenge"; under method `S256` the
exchange can succeed only when `hashB64 verifier` (that is,
`base64url_nopad(sha256(verifier))`) equals the stored challenge, and a
mismatch fails the same way. -/
theorem c3_pkce_verification
    (hashB64 : String → String) (now : Int)
    (vue : Session → User → Except ErrorResponse Unit)
    (client_id idx ch : String) (verifier : Option String) (st : Store)
    (c : AuthCode)
    (hfind : AuthCode.find st idx = some c)
    (hclient : c.client_id = client_id)
    (hexp : ¬ c.exp < now)
    (hch : c.challenge = some ch) :
    (verifier = none →
      (grant_type_code hashB64 now vue client_id (some idx) verifier st).fst =
        .err ⟨.badRequest, "'code_verifier' is missing"⟩) ∧
    (c.challenge_method = some "plain" →
      (∀ ts, (grant_type_code hashB64 now vue client_id (some idx) verifier st).fst = .ok ts →
        verifier = some ch) ∧
      (∀ v, verifier = some v → v ≠ ch →
        (grant_type_code hashB64 now vue client_id (some idx) verifier st).fst =
          .err ⟨.unauthorized, "'code_verifier' does not match the challenge"⟩)) ∧
    (c.challenge_method = some "S256" →
      (∀ ts, (grant_type_code hashB64 now vue client_id (some idx) verifier st).fst = .ok ts →
        ∃ v, verifier = some v ∧ hashB64 v = ch) ∧
      (∀ v, verifier = some v → hashB64 v ≠ ch →
        (grant_type_code hashB64 now vue client_id (some idx) verifier st).fst =
          .err ⟨.unauthorized, "'code_verifier' does not match the challenge"⟩)) := by
  have herr : ∀ e, pkce_check hashB64 c verifier = .err e →
      (grant_type_code hashB64 now vue client_id (some idx) verifier st).fst = .err e := by
    intro e hp
    simp [grant_type_code, hfind, hclient, hexp, hp]
  have hokk : ∀ ts, (grant_type_code hashB64 now vue client_id (some idx) verifier st).fst = .ok ts →
      pkce_check hashB64 c verifier = .ok () := by
    intro ts h
    cases hp : pkce_check hashB64 c verifier with
    | ok u => cases u; rfl
    | err e => rw [herr e hp] at h; exact absurd h (by simp)
    | panicked =>
      have hpan : (grant_type_code hashB64 now vue client_id (some idx) verifier st).fst =
          .panicked := by
        simp [grant_type_code, hfind, hclient, hexp, hp]
      rw [hpan] at h; exact absurd h (by simp)
  refine ⟨?_, fun hm => ⟨?_, ?_⟩, fun hm => ⟨?_, ?_⟩⟩
  · intro hveq
    subst hveq
    exact herr _ (by simp [pkce_check, hch])
  · intro ts h
    have hp := hokk ts h
    cases verifier with
    | none => simp [pkce_check, hch] at hp
    | some v =>
      rw [pkce_check_plain hashB64 c v ch hch hm] at hp
      by_cases hv : ch = v
      · rw [hv]
      · rw [if_neg hv] at hp; exact absurd hp (by simp)
  · intro v hveq hne
    subst hveq
    rw [herr _ ?_]
    rw [pkce_check_plain hashB64 c v ch hch hm, if_neg (fun h => hne h.symm)]
  · intro ts h
    have hp := hokk ts h
    cases verifier with
    | none => simp [pkce_check, hch] at hp
    | some v =>
      rw [pkce_check_s256 hashB64 c v ch hch hm] at hp
      by_cases hv : ch = hashB64 v
      · exact ⟨v, rfl, hv.symm⟩
      · rw [if_neg hv] at hp; exact absurd hp (by simp)
  · intro v hveq hne
    subst hveq
    rw [herr _ ?_]
    rw [pkce_check_s256 hashB64 c v ch hch hm, if_neg (fun h => hne h.symm)]

/-- Plain-method code of the C3 witness (challenge "abc"). -/
def c3_code_plain : AuthCode :=
  ⟨"cp", "u1", "cl1", none, some "abc", some "plain", none, ["openid"], 100⟩

/-- S256-method code of the C3 witness (challenge "ver#"). -/
def c3_code_s256 : AuthCode :=
  ⟨"cs", "u1", "cl1", none, some "ver#", some "S256", none, ["openid"], 100⟩

/-- Store of the C3 witness scenario. -/
def c3_store : Store := ⟨[c3_code_plain, c3_code_s256], [], [], []⟩

/-- C3 witness: concrete redemptions hitting the missing-verifier branch,
a plain-method mismatch and an S256 mismatch (with
`hashB64 := fun s => s ++ "#"` as the stand-in hash). -/
theorem c3_witness :
    (grant_type_code (fun s => s ++ "#") 50 (fun _ _ => Except.ok ()) "cl1"
        (some "cp") none c3_store).fst =
      Outcome.err ⟨ErrorResponseType.badRequest, "'code_verifier' is missing"⟩ ∧
    (grant_type_code (fun s => s ++ "#") 50 (fun _ _ => Except.ok ()) "cl1"
        (some "cp") (some "wrong") c3_store).fst =
      Outcome.err ⟨ErrorResponseType.unauthorized, "'code_verifier' does not match the challenge"⟩ ∧
    (grant_type_code (fun s => s ++ "#") 50 (fun _ _ => Except.ok ()) "cl1"
        (some "cs") (some "x") c3_store).fst =
      Outcome.err ⟨ErrorResponseType.unauthorized, "'code_verifier' does not match the challenge"⟩ := by
  refine ⟨?_, ?_, ?_⟩
  · exact (c3_pkce_verification (fun s => s ++ "#") 50 (fun _ _ => Except.ok ()) "cl1" "cp" "abc"
      none c3_store c3_code_plain rfl rfl (by decide) rfl).1 rfl
  · exact ((c3_pkce_verification (fun s => s ++ "#") 50 (fun _ _ => Except.ok ()) "cl1" "cp" "abc"
      (some "wrong") c3_store c3_code_plain rfl rfl (by decide) rfl).2.1 rfl).2 "wrong" rfl (by decide)
  · exact ((c3_pkce_verification (fun s => s ++ "#") 50 (fun _ _ => Except.ok ()) "cl1" "cs" "ver#"
      (some "x") c3_store c3_code_s256 rfl rfl (by decide) rfl).2.2 rfl).2 "x" rfl (by decide)

/-- Rust `str::contains(pat)`: substring containment. -/
def contains_sub (s pat : String) : Bool :=
  decide (pat.toList <:+: s.toList)

/-- Splitting a character list on a separator character (the semantics of
Rust's `str::split(sep)` for a one-character separator). -/
def split_on_char (sep : Char) : List Char → List (List Char)
  | [] => [[]]
  | c :: rest =>
    match split_on_char sep rest with
    | [] => if c = sep then [[], []] else [[c]]
    | h :: t => if c = sep then [] :: h :: t else (c :: h) :: t

/-- Splitting a string on a separator character. -/
def split_str (sep : Char) (s : String) : List String :=
  (split_on_char sep s.toList).map String.mk

/-- Modelled from the spec: `User::get_roles` (entity method outside the
given source) turns the stored comma-separated `roles` string into a
list (§3 "roles, groups" are lists on tokens). -/
def User.get_roles (u : User) : List String :=
  split_str ',' u.roles

/-- Modelled from the spec: `User::get_groups` (entity method outside the
given source); absent `groups` yields the empty list. -/
def User.get_groups (u : User) : List String :=
  match u.groups with
  | some g => split_str ',' g
  | none => []

/-- The custom claims of an access token (`JwtAccessClaims`). The
`custom` map is modelled as an association list whose values are the raw
attribute bytes rendered as strings. -/
structure JwtAccessClaims where
  typ : JwtType
  azp : String
  scope : String
  uid : Option String
  preferred_username : Option String
  roles : Option (List String)
  groups : Option (List String)
  custom : Option (List (String × String))
deriving DecidableEq, Repr

/-- The scope actually carried by an access token (`auth.rs` lines
322-326): the argument when given, else the client's default scopes with
commas turned into spaces. -/
def access_token_scope (client : Client) (scope? : Option String) : String :=
  match scope? with
  | some s => s
  | none => client.default_scopes.replace "," " "

/-- `build_access_token` (`auth.rs` lines 314-385) up to the point the
claims are handed to the signer: scope resolution, the user-specific
claims block (lines 340-351, with its substring `scope.contains("groups")`
test) and the custom-attribute block. The JWT common claims (`iss`,
`aud`, `exp`, `sub`) and `sign_access_token` are outside the model. -/
def build_access_token_claims (user : Option User) (client : Client)
    (scope? : Option String)
    (scope_customs : Option (List ScopeEnt × List (String × String))) : JwtAccessClaims :=
  let scope := access_token_scope client scope?
  let cc : JwtAccessClaims := ⟨.bearer, client.id, scope, none, none, none, none, none⟩
  let cc :=
    match user with
    | none => cc
    | some u =>
      let cc := { cc with
        preferred_username := some u.email
        uid := some u.id
        roles := some (User.get_roles u) }
      if contains_sub cc.scope "groups" then { cc with groups := some (User.get_groups u) }
      else cc
  match scope_customs with
  | none => cc
  | some (custs, user_attrs) =>
    let attr := custs.foldl (fun acc cst =>
      match cst.attr_include_access with
      | none => acc
      | some csv => (split_str ',' csv).foldl (fun acc2 cust_name =>
          match user_attrs.find? (fun kv => kv.fst = cust_name) with
          | some kv => acc2 ++ [(cust_name, kv.snd)]
          | none => acc2) acc) []
    if attr.isEmpty then cc else { cc with custom := some attr }

/-- The specification's wording for C7: the scope string contains
`groups` as a whitespace-separated token. Stated separately from the
source-derived `contains_sub` so the two can be compared. -/
def scope_has_word (scope word : String) : Bool :=
  (split_str ' ' scope).contains word

/-- User of the C7 counterexample. -/
def c7_user : User := ⟨"u1", "u1@x", some "h", true, none, "admin", some "g1", none, none, none⟩

/-- Client of the C7 counterexample. -/
def c7_client : Client := ⟨"cl1", false, true, "openid,email"⟩

/-- C7 counterexample: for the scope string "xgroups" — which does not
contain `groups` as a whitespace-separated token — the access token
claims nevertheless include the `groups` claim, because the source tests
substring containment (`scope.contains("groups")`). -/
theorem c7_counterexample :
    (build_access_token_claims (some c7_user) c7_client (some "xgroups") none).groups =
      some ["g1"] ∧
    scope_has_word "xgroups" "groups" = false :=
  ⟨rfl, rfl⟩

/-- C7 (amended): for every access token minted for a present user, the
`groups` claim is included if and only if the token's scope string
contains `"groups"` as a substring (Rust `String::contains`), in which
case it carries the user's groups. -/
theorem c7_groups_claim_iff_substring
    (u : User) (client : Client) (scope? : Option String)
    (scope_customs : Option (List ScopeEnt × List (String × String))) :
    (build_access_token_claims (some u) client scope? scope_customs).groups =
      (if contains_sub (access_token_scope client scope?) "groups"
       then some (User.get_groups u) else none) := by
  cases scope_customs with
  | none =>
    simp only [build_access_token_claims]
    split <;> rfl
  | some p =>
    cases p with
    | mk custs user_attrs =>
      simp only [build_access_token_claims]
      split <;> split <;> rfl

/-- The validation handle persisted when a refresh token is minted
(`auth.rs` line 495): `String::from(&token).split_off(token.len() - 49)`,
the suffix of the issued JWT starting 49 characters before its end.
JWTs are ASCII, so Rust's byte indices coincide with characters. -/
def refresh_token_validation_string (token : String) : String :=
  String.mk (token.toList.drop (token.length - 49))

/-- The lookup key the redemption path extracts (`auth.rs` line 1462):
`refresh_token.split_at(refresh_token.len() - 49)` and keeping the
second component. -/
def refresh_token_lookup_key (token : String) : String :=
  (String.mk (token.toList.take (token.length - 49)),
   String.mk (token.toList.drop (token.length - 49))).snd

/-- The persistence step of `build_refresh_token` (`auth.rs` lines
474-512): after signing, the last 49 characters of the token are stored
as a `RefreshToken` entity with the user binding, `nbf`, `exp`, scope
and MFA flag. Signing itself is external; the signed `token` is the
input. -/
def build_refresh_token_store (token user_id : String) (nbf exp : Int)
    (scope : Option String) (is_mfa : Bool) (st : Store) : Store :=
  RefreshTokenEnt.create st (refresh_token_validation_string token) user_id nbf exp scope is_mfa

/-- C8: for every issued refresh token of length at least 49, the
redemption lookup key equals the persisted validation handle, the handle
is exactly 49 characters long, and looking the key up right after
minting finds the entry persisted at mint time (round-trip). -/
theorem c8_refresh_handle_round_trip
    (token user_id : String) (nbf exp : Int) (scope : Option String) (is_mfa : Bool)
    (st : Store) (hlen : 49 ≤ token.length) :
    refresh_token_lookup_key token = refresh_token_validation_string token ∧
    (refresh_token_validation_string token).length = 49 ∧
    RefreshTokenEnt.find (build_refresh_token_store token user_id nbf exp scope is_mfa st)
        (refresh_token_lookup_key token) =
      some ⟨refresh_token_validation_string token, user_id, nbf, exp, scope, is_mfa⟩ := by
  refine ⟨rfl, ?_, ?_⟩
  · have h1 : (refresh_token_validation_string token).length =
        (token.toList.drop (token.length - 49)).length := rfl
    have hd : token.toList.length = token.length := rfl
    rw [h1, List.length_drop, hd]
    omega
  · show RefreshTokenEnt.find _ (refresh_token_validation_string token) = _
    rw [build_refresh_token_store, RefreshTokenEnt.find, RefreshTokenEnt.create]
    simp [List.find?]

/-- C8 witness: a concrete 60-character token round-trips to its
persisted 49-character handle. -/
theorem c8_witness :
    refresh_token_lookup_key "aaaaaaaaaaabbbbbbbbbbbbbbbbbbbbbbbbbbbbbbbbbbbbbbbbbbbbbbbb" =
      refresh_token_validation_string "aaaaaaaaaaabbbbbbbbbbbbbbbbbbbbbbbbbbbbbbbbbbbbbbbbbbbbbbbb" ∧
    (refresh_token_validation_string
        "aaaaaaaaaaabbbbbbbbbbbbbbbbbbbbbbbbbbbbbbbbbbbbbbbbbbbbbbbb").length = 49 ∧
    RefreshTokenEnt.find
        (build_refresh_token_store "aaaaaaaaaaabbbbbbbbbbbbbbbbbbbbbbbbbbbbbbbbbbbbbbbbbbbbbbbb"
          "u1" 5 100 none false ⟨[], [], [], []⟩)
        (refresh_token_lookup_key "aaaaaaaaaaabbbbbbbbbbbbbbbbbbbbbbbbbbbbbbbbbbbbbbbbbbbbbbbb") =
      some ⟨refresh_token_validation_string
          "aaaaaaaaaaabbbbbbbbbbbbbbbbbbbbbbbbbbbbbbbbbbbbbbbbbbbbbbbb",
        "u1", 5, 100, none, false⟩ :=
  c8_refresh_handle_round_trip
    "aaaaaaaaaaabbbbbbbbbbbbbbbbbbbbbbbbbbbbbbbbbbbbbbbbbbbbbbbb"
    "u1" 5 100 none false ⟨[], [], [], []⟩ (by decide)

/-- Modelled from the spec: `User::check_enabled` (entity method outside
the given source) fails for a disabled user with the fixed message
"Invalid user credentials" (§4.2). -/
def User.check_enabled (u : User) : Except ErrorResponse Unit :=
  if u.enabled then .ok () else .error ⟨.unauthorized, "Invalid user credentials"⟩

/-- Modelled from the spec: `User::check_expired` (entity method outside
the given source) fails for an expired user with the same fixed message
(§4.2, §3 "a disabled or expired user cannot authenticate"). -/
def User.check_expired (now : Int) (u : User) : Except ErrorResponse Unit :=
  match u.user_expires with
  | none => .ok ()
  | some exp => if exp < now then .error ⟨.unauthorized, "Invalid user credentials"⟩ else .ok ()

/-- The custom claims of a refresh token (`JwtRefreshClaims`). -/
structure JwtRefreshClaims where
  azp : String
  typ : JwtType
  uid : String
deriving DecidableEq, Repr

/-- `validate_refresh_token` (`auth.rs` lines 1416-1507) for the case the
caller supplies the client (the `refresh_token` grant path).
`jwt_validate` stands for the external kid extraction, key-pair lookup
and `validate_jwt!` signature / issuer verification. A presented token
shorter than 49 characters makes the source's `split_at` panic. The
misuse message reproduces the source's Rust line-continuation, which
splices "tokens" and "for" together without a space. -/
def validate_refresh_token (now refresh_grace_time : Int)
    (jwt_validate : String → Except ErrorResponse JwtRefreshClaims)
    (client : Client) (refresh_token : String) (st : Store) :
    Outcome TokenSet × Store :=
  match jwt_validate refresh_token with
  | .error e => (.err e, st)
  | .ok claims =>
    if claims.typ ≠ JwtType.refresh then
      (.err ⟨.badRequest, "Provided Token is not a valid refresh token"⟩, st)
    else
      let uid := claims.uid
      if client.id ≠ claims.azp then
        (.err ⟨.badRequest, "'client_id' does not match"⟩, st)
      else if refresh_token.length < 49 then
        (.panicked, st)
      else
        match RefreshTokenEnt.find st (refresh_token_lookup_key refresh_token) with
        | none => (.err ⟨.notFound, "refresh token does not exist"⟩, st)
        | some rt =>
          if rt.exp < now then
            (.err ⟨.badRequest,
                "Refresh Token has expired already. All other refresh tokensfor this user have been invalidated now because of misuse."⟩,
              RefreshTokenEnt.invalidate_all_for_user st rt.user_id)
          else
            match User.find st uid with
            | none => (.err ⟨.notFound, "user not found"⟩, st)
            | some user =>
              match User.check_enabled user with
              | .error e => (.err e, st)
              | .ok _ =>
                match User.check_expired now user with
                | .error e => (.err e, st)
                | .ok _ =>
                  let user' := { user with last_login := some now }
                  let st1 := User.save st user'
                  let exp_at_secs := now + refresh_grace_time
                  let st2 :=
                    if rt.exp > exp_at_secs + 1 then
                      RefreshTokenEnt.save st1 { rt with exp := exp_at_secs }
                    else st1
                  (.ok (TokenSet.from_user user' client.id none rt.scope rt.is_mfa), st2)

/-- C2: in the `refresh_token` grant, whenever the persisted handle of
the presented token has `exp` strictly before the current time, the
redemption fails with `BadRequest` and every persisted refresh token of
that handle's user is invalidated; and a new token set is only ever
issued when a persisted handle exists whose `exp` is not in the past. -/
theorem c2_refresh_expired_handle_misuse
    (now grace : Int) (jwt_validate : String → Except ErrorResponse JwtRefreshClaims)
    (client : Client) (token : String) (st : Store) :
    (∀ claims rt, jwt_validate token = .ok claims → claims.typ = JwtType.refresh →
      client.id = claims.azp → 49 ≤ token.length →
      RefreshTokenEnt.find st (refresh_token_lookup_key token) = some rt →
      rt.exp < now →
      (validate_refresh_token now grace jwt_validate client token st).fst =
        .err ⟨.badRequest,
          "Refresh Token has expired already. All other refresh tokensfor this user have been invalidated now because of misuse."⟩ ∧
      ∀ r ∈ (validate_refresh_token now grace jwt_validate client token st).snd.refresh_tokens,
        r.user_id ≠ rt.user_id) ∧
    (∀ ts, (validate_refresh_token now grace jwt_validate client token st).fst = .ok ts →
      ∃ rt, RefreshTokenEnt.find st (refresh_token_lookup_key token) = some rt ∧
        ¬ rt.exp < now) := by
  constructor
  · intro claims rt h1 h2 h3 h4 h5 h6
    have h4' : ¬ (token.length < 49) := by omega
    have hred : validate_refresh_token now grace jwt_validate client token st =
        (.err ⟨.badRequest,
            "Refresh Token has expired already. All other refresh tokensfor this user have been invalidated now because of misuse."⟩,
          RefreshTokenEnt.invalidate_all_for_user st rt.user_id) := by
      simp [validate_refresh_token, h1, h2, h3, h4', h5, h6]
    refine ⟨by rw [hred], ?_⟩
    rw [hred]
    exact RefreshTokenEnt.invalidate_all_for_user_spec st rt.user_id
  · intro ts h
    simp only [validate_refresh_token] at h
    cases hjw : jwt_validate token with
    | error e => simp only [hjw] at h; exact absurd h (by simp)
    | ok claims =>
      simp only [hjw] at h
      by_cases htyp : claims.typ ≠ JwtType.refresh
      · rw [if_pos htyp] at h; exact absurd h (by simp)
      · rw [if_neg htyp] at h
        by_cases hazp : client.id ≠ claims.azp
        · rw [if_pos hazp] at h; exact absurd h (by simp)
        · rw [if_neg hazp] at h
          by_cases hlen : token.length < 49
          · rw [if_pos hlen] at h; exact absurd h (by simp)
          · rw [if_neg hlen] at h
            cases hrt : RefreshTokenEnt.find st (refresh_token_lookup_key token) with
            | none => simp only [hrt] at h; exact absurd h (by simp)
            | some rt =>
              simp only [hrt] at h
              by_cases hexp : rt.exp < now
              · rw [if_pos hexp] at h; exact absurd h (by simp)
              · exact ⟨rt, rfl, hexp⟩

/-- Refresh token of the C2 witness: a 49-character JWT stand-in, whose
lookup key is the whole token. -/
def c2_token : String := "aaaaaaaaaaaaaaaaaaaaaaaaaaaaaaaaaaaaaaaaaaaaaaaaa"

/-- Store of the C2 witness: the expired handle of `c2_token` plus a
second, still-valid handle of the same user. -/
def c2_store : Store :=
  ⟨[], [], [], [⟨c2_token, "u1", 0, 10, none, false⟩, ⟨"other", "u1", 0, 500, none, false⟩]⟩

/-- C2 witness: presenting the token whose persisted handle expired at 10
at time 100 fails with the misuse `BadRequest`, and no refresh token of
user `u1` survives in the resulting store. -/
theorem c2_witness :
    (validate_refresh_token 100 10 (fun _ => Except.ok ⟨"cl1", JwtType.refresh, "u1"⟩)
        ⟨"cl1", false, true, ""⟩ c2_token c2_store).fst =
      Outcome.err ⟨ErrorResponseType.badRequest,
        "Refresh Token has expired already. All other refresh tokensfor this user have been invalidated now because of misuse."⟩ ∧
    (validate_refresh_token 100 10 (fun _ => Except.ok ⟨"cl1", JwtType.refresh, "u1"⟩)
        ⟨"cl1", false, true, ""⟩ c2_token c2_store).snd.refresh_tokens.all
      (fun r => r.user_id ≠ "u1") = true := by
  have h := (c2_refresh_expired_handle_misuse 100 10
      (fun _ => Except.ok ⟨"cl1", JwtType.refresh, "u1"⟩) ⟨"cl1", false, true, ""⟩
      c2_token c2_store).1 ⟨"cl1", JwtType.refresh, "u1"⟩ ⟨c2_token, "u1", 0, 10, none, false⟩
      rfl rfl rfl (by decide) rfl (by decide)
  refine ⟨h.1, ?_⟩
  rw [List.all_eq_true]
  intro r hr
  simpa using h.2 r hr

/-- After `User::save`, looking up the saved user's id yields the saved
record. -/
theorem User.find_save_self (st : Store) (u : User) :
    User.find (User.save st u) u.id = some u := by
  simp [User.find, User.save, List.find?]

/-- The user-facing part of `grant_type_password` (`auth.rs` lines
827-915) from the user lookup onward; the client lookup / origin /
secret / flow validation preceding it is taken as already passed.
`pw_validate` is `User::validate_password` (entity method outside the
given source; its error is returned verbatim), `hash_uptodate` models
the `User::is_argon2_uptodate` check and `new_hash` the hash that
`HashPassword::hash_password` recomputes on an upgrade. The
`find_by_email` miss is mapped to `Unauthorized` / "Invalid user
credentials" exactly as the source's `map_err` does. -/
def grant_type_password_core (now : Int)
    (pw_validate : User → String → Except ErrorResponse Unit)
    (hash_uptodate : Bool) (new_hash : String) (client : Client)
    (st : Store) (email password : String) : Outcome TokenSet × Store :=
  match User.find_by_email st email with
  | none => (.err ⟨.unauthorized, "Invalid user credentials"⟩, st)
  | some user =>
    match User.check_enabled user with
    | .error e => (.err e, st)
    | .ok _ =>
      match User.check_expired now user with
      | .error e => (.err e, st)
      | .ok _ =>
        match pw_validate user password with
        | .ok _ =>
          let user1 := { user with
            last_login := some now
            last_failed_login := none
            failed_login_attempts := none }
          let user2 := if hash_uptodate then user1 else { user1 with password := some new_hash }
          (.ok (TokenSet.from_user user2 client.id none none false), User.save st user2)
        | .error err =>
          let user1 := { user with
            last_failed_login := some now
            failed_login_attempts := some (user.failed_login_attempts.getD 0 + 1) }
          (.err err, User.save st user1)

/-- C10: in the `password` grant, when the user exists, is enabled and
not expired but the password check fails, the error is returned and the
user record persisted in the store has `last_failed_login` set to the
current time and `failed_login_attempts` incremented by one (from 0 when
absent), while `last_login` is unchanged. -/
theorem c10_password_failure_mutates_user
    (now : Int) (pw_validate : User → String → Except ErrorResponse Unit)
    (hash_uptodate : Bool) (new_hash : String) (client : Client)
    (st : Store) (email password : String) (user : User) (err : ErrorResponse)
    (hfind : User.find_by_email st email = some user)
    (hen : user.enabled = true)
    (hexp : User.check_expired now user = .ok ())
    (hpw : pw_validate user password = .error err) :
    (grant_type_password_core now pw_validate hash_uptodate new_hash client
        st email password).fst = .err err ∧
    User.find (grant_type_password_core now pw_validate hash_uptodate new_hash client
        st email password).snd user.id =
      some { user with
        last_failed_login := some now
        failed_login_attempts := some (user.failed_login_attempts.getD 0 + 1) } ∧
    ({ user with
        last_failed_login := some now
        failed_login_attempts := some (user.failed_login_attempts.getD 0 + 1) } : User).last_login =
      user.last_login := by
  have hen' : User.check_enabled user = .ok () := by simp [User.check_enabled, hen]
  have hred : grant_type_password_core now pw_validate hash_uptodate new_hash client
      st email password =
      (.err err, User.save st { user with
        last_failed_login := some now
        failed_login_attempts := some (user.failed_login_attempts.getD 0 + 1) }) := by
    simp [grant_type_password_core, hfind, hen', hexp, hpw]
  refine ⟨by rw [hred], ?_, rfl⟩
  rw [hred]
  exact User.find_save_self st _

/-- User of the C10 witness: two prior failed attempts, a recorded last
login at 42. -/
def c10_user : User := ⟨"u1", "u1@x", some "h", true, none, "admin", none, some 42, none, some 2⟩

/-- Store of the C10 witness. -/
def c10_store : Store := ⟨[], [], [c10_user], []⟩

/-- C10 witness: a concrete failing password check persists the bumped
counters while keeping `last_login` at 42. -/
theorem c10_witness :
    (grant_type_password_core 100
        (fun _ _ => Except.error ⟨ErrorResponseType.unauthorized, "Invalid user credentials"⟩)
        true "" ⟨"cl1", false, true, ""⟩ c10_store "u1@x" "wrong").fst =
      Outcome.err ⟨ErrorResponseType.unauthorized, "Invalid user credentials"⟩ ∧
    User.find (grant_type_password_core 100
        (fun _ _ => Except.error ⟨ErrorResponseType.unauthorized, "Invalid user credentials"⟩)
        true "" ⟨"cl1", false, true, ""⟩ c10_store "u1@x" "wrong").snd "u1" =
      some ⟨"u1", "u1@x", some "h", true, none, "admin", none, some 42, some 100, some 3⟩ := by
  have h := c10_password_failure_mutates_user 100
      (fun _ _ => Except.error ⟨ErrorResponseType.unauthorized, "Invalid user credentials"⟩)
      true "" ⟨"cl1", false, true, ""⟩ c10_store "u1@x" "wrong" c10_user
      ⟨ErrorResponseType.unauthorized, "Invalid user credentials"⟩ rfl rfl rfl rfl
  exact ⟨h.1, h.2.1⟩

/-- Rust `x as u64` on an `i64`: two's-complement reinterpretation,
i.e. the value modulo `2^64`. -/
def i64_as_u64 (x : Int) : Nat := (x % (2 : Int) ^ 64).toNat

/-- Rust `x as i64` on a `u128`: truncation to 64 bits reinterpreted as
signed. -/
def u128_as_i64 (x : Nat) : Int :=
  let r : Nat := x % 2 ^ 64
  if r < 2 ^ 63 then (r : Int) else (r : Int) - 2 ^ 64

/-- For values below `2^63` the `u128 → i64` cast is the identity. -/
theorem u128_as_i64_small (d : Nat) (h : d < 2 ^ 63) : u128_as_i64 d = d := by
  unfold u128_as_i64
  rw [Nat.mod_eq_of_lt (by omega), if_pos h]

/-- For non-negative values below `2^63` the `i64 → u64` cast is `toNat`. -/
theorem i64_as_u64_small (x : Int) (h0 : 0 ≤ x) (h1 : x < 2 ^ 63) :
    i64_as_u64 x = x.toNat := by
  unfold i64_as_u64
  rw [Int.emod_eq_of_lt h0 (by omega)]

/-- `handle_login_delay` (`auth.rs` lines 960-1016). The response type is
abstract (`α`); `cached` is the `IDX_LOGIN_TIME` entry of the login-delay
cache (`none` on a miss; `unwrap_or(2000)` in the source), `start_ms`
and `end_ms` are the request start and the current time in milliseconds
(`Duration` subtraction panics for `end < start`, so the theorems assume
`start_ms ≤ end_ms`). Returns the handler result, the cache content
afterwards, and the milliseconds slept. The `i64` addition
`success_time + delta` is far below `2^63` in practice, so its wrap is
not modelled; the `as u64` / `as i64` casts are. -/
def handle_login_delay (α : Type) (cached : Option Int) (start_ms end_ms : Nat)
    (res : Except ErrorResponse (α × Bool)) :
    Except ErrorResponse α × Option Int × Nat :=
  let success_time := cached.getD 2000
  let delta := end_ms - start_ms
  match res with
  | .ok (resp, has_password_been_hashed) =>
    if has_password_been_hashed then
      let new_time := Int.tdiv (success_time + u128_as_i64 delta) 2
      (.ok resp, some new_time, 0)
    else
      (.ok resp, cached, 0)
  | .error err =>
    let time_taken := delta % 2 ^ 64
    let su64 := i64_as_u64 success_time
    let sleep_time := if time_taken < su64 then su64 - time_taken else 0
    (.error err, cached, sleep_time)

/-- C4: the login-delay handler reads the cached average as 2000 when it
is absent; a success that hashed a password stores
`(avg_success_ms + observed_ms) / 2` as the new average and does not
sleep; a success without a hashed password leaves the cache unchanged
and does not sleep; a failure leaves the cache unchanged and sleeps
exactly `max 0 (avg_success_ms - observed_ms)` milliseconds before
returning the error. -/
theorem c4_login_delay_equalizer
    (α : Type) (cached : Option Int) (start_ms end_ms : Nat)
    (resp : α) (err : ErrorResponse)
    (h0 : 0 ≤ cached.getD 2000) (h1 : cached.getD 2000 < 2 ^ 63)
    (hms : start_ms ≤ end_ms) (hd : end_ms - start_ms < 2 ^ 63) :
    handle_login_delay α none start_ms end_ms (.error err) =
      (.error err, none, (max 0 (2000 - ((end_ms - start_ms : Nat) : Int))).toNat) ∧
    handle_login_delay α cached start_ms end_ms (.ok (resp, true)) =
      (.ok resp, some (Int.tdiv (cached.getD 2000 + ((end_ms - start_ms : Nat) : Int)) 2), 0) ∧
    handle_login_delay α cached start_ms end_ms (.ok (resp, false)) =
      (.ok resp, cached, 0) ∧
    handle_login_delay α cached start_ms end_ms (.error err) =
      (.error err, cached,
        (max 0 (cached.getD 2000 - ((end_ms - start_ms : Nat) : Int))).toNat) := by
  have hsleep : ∀ (c : Option Int), 0 ≤ c.getD 2000 → c.getD 2000 < 2 ^ 63 →
      handle_login_delay α c start_ms end_ms (.error err) =
        (.error err, c,
          (max 0 (c.getD 2000 - ((end_ms - start_ms : Nat) : Int))).toNat) := by
    intro c hc0 hc1
    simp only [handle_login_delay]
    rw [Nat.mod_eq_of_lt (by omega), i64_as_u64_small _ hc0 hc1]
    by_cases hlt : end_ms - start_ms < (c.getD 2000).toNat
    · rw [if_pos hlt]
      have hmax : (max 0 (c.getD 2000 - ((end_ms - start_ms : Nat) : Int))).toNat =
          (c.getD 2000).toNat - (end_ms - start_ms) := by
        rw [max_eq_right (by omega)]
        omega
      rw [hmax]
    · rw [if_neg hlt]
      have hmax : (max 0 (c.getD 2000 - ((end_ms - start_ms : Nat) : Int))).toNat = 0 := by
        rw [max_eq_left (by omega)]
        rfl
      rw [hmax]
  refine ⟨?_, ?_, rfl, hsleep cached h0 h1⟩
  · have h := hsleep none (by norm_num) (by norm_num)
    simpa using h
  · simp only [handle_login_delay]
    rw [u128_as_i64_small _ hd]
    simp

/-- C4 witness: with a cached average of 3000 and an observed duration of
600 ms, a failure sleeps 2400 ms, a hashed success stores 1800, an
unhashed success changes nothing; with an absent cache entry a failure
sleeps 1400 ms (default average 2000). -/
theorem c4_witness :
    handle_login_delay Nat (some 3000) 1000 1600
        (.error ⟨ErrorResponseType.unauthorized, "x"⟩) =
      (.error ⟨ErrorResponseType.unauthorized, "x"⟩, some 3000, 2400) ∧
    handle_login_delay Nat (some 3000) 1000 1600 (.ok (7, true)) =
      (.ok 7, some 1800, 0) ∧
    handle_login_delay Nat (some 3000) 1000 1600 (.ok (7, false)) =
      (.ok 7, some 3000, 0) ∧
    handle_login_delay Nat none 1000 1600
        (.error ⟨ErrorResponseType.unauthorized, "x"⟩) =
      (.error ⟨ErrorResponseType.unauthorized, "x"⟩, none, 1400) := by
  have h := c4_login_delay_equalizer Nat (some 3000) 1000 1600 7
      ⟨ErrorResponseType.unauthorized, "x"⟩
      (by norm_num) (by norm_num) (by norm_num) (by norm_num)
  refine ⟨?_, ?_, h.2.2.1, ?_⟩
  · rw [h.2.2.2]; norm_num; decide
  · rw [h.2.1]; norm_num; decide
  · rw [h.1]; norm_num; decide

/-- The claims of a validated bearer access token as the extractor sees
them: the JWT `sub` plus the custom `JwtAccessClaims`. -/
structure AccessTokenClaims where
  subject : Option String
  custom : JwtAccessClaims
deriving DecidableEq, Repr

/-- `permission_extractor` (`auth.rs` lines 1079-1208). Parameters:
`roles_as_vec` is `Session::roles_as_vec` (entity method outside the
given source), `session_opt` the optional session injected by the
session middleware, `api_key_valid` whether an `API-Key` header was
present and validated, `bearer` the result of
`get_bearer_token_from_header`, and `validate` the external
`validate_token::<JwtAccessClaims>`. The result is the granted
permission strings together with the principal inserted into the
request extensions. An authenticated session without a `user_id` hits
the source's `expect` panic. -/
def permission_extractor
    (roles_as_vec : Option String → Except ErrorResponse (List String))
    (session_opt : Option Session) (api_key_valid : Bool)
    (bearer : Except ErrorResponse String)
    (validate : String → Except ErrorResponse AccessTokenClaims) :
    Outcome (List String × Option Principal) :=
  let base : Outcome (List String × Option Principal) :=
    match session_opt with
    | none => .ok (["all"], none)
    | some session =>
      let perm :=
        match session.state with
        | SessionState.init => "session-init"
        | SessionState.auth => "session-auth"
        | _ => "session-anon"
      if session.state = SessionState.auth then
        match roles_as_vec session.roles with
        | .error e => .err e
        | .ok roles =>
          match session.user_id with
          | none => .panicked
          | some uid =>
            .ok (["all", perm] ++ roles,
              some ⟨uid, none, session.is_mfa, true, false, roles⟩)
      else .ok (["all", perm], none)
  match base with
  | .err e => .err e
  | .panicked => .panicked
  | .ok (res, principal) =>
    let res := if api_key_valid then res ++ ["api-key"] else res
    match bearer with
    | .error _ => .ok (res, principal)
    | .ok btok =>
      match validate btok with
      | .error e => .err e
      | .ok claims =>
        match claims.custom.roles with
        | none => .err ⟨.internal, "Malformed JWT Token - roles missing"⟩
        | some token_roles =>
          let res := res ++ token_roles.map (fun r => "ROLE_" ++ r)
          match claims.custom.uid with
          | none => .ok (res ++ ["token-auth"], principal)
          | some uid =>
            match claims.subject with
            | none => .err ⟨.unauthorized, "Malformed JWT Token"⟩
            | some sub =>
              match principal with
              | some p =>
                if p.user_id ≠ uid then
                  .ok (res, some p)
                else
                  .ok (res ++ ["token-auth"],
                    some { p with email := some sub, has_token := true })
              | none =>
                let roles := token_roles.map (fun r => "ROLE_" ++ r)
                .ok (res ++ ["token-auth"],
                  some ⟨uid, some sub, false, false, true, roles⟩)

/-- Authenticated session of the C6 scenario, bound to user `u1`. -/
def c6_session : Session :=
  ⟨"s1", "csrf", some "u1", some "r1", none, false, SessionState.auth, 0, 0⟩

/-- Bearer token claims of the C6 scenario: user `u2`, role `admin`. -/
def c6_claims : AccessTokenClaims :=
  ⟨some "e@x", ⟨.bearer, "cl1", "openid", some "u2", none, some ["admin"], none, none⟩⟩

/-- C6 counterexample: session principal (user `u1`) and valid bearer
token (uid `u2`) disagree; the resulting principal is the session's, but
the token's role `admin` has nevertheless been added to the granted
permissions as `ROLE_admin` — contradicting the claim that no token
claims are added to the granted permissions. -/
theorem c6_counterexample :
    permission_extractor (fun _ => Except.ok ["r1"]) (some c6_session) false
        (Except.ok "tok") (fun _ => Except.ok c6_claims) =
      Outcome.ok (["all", "session-auth", "r1", "ROLE_admin"],
        some ⟨"u1", none, false, true, false, ["r1"]⟩) ∧
    "ROLE_admin" ∈ ["all", "session-auth", "r1", "ROLE_admin"] :=
  ⟨rfl, by decide⟩

/-- C6 (amended): when an authenticated session principal and a valid
bearer token are both present and disagree on `user_id`, the resulting
principal is the session's, unchanged — no email, no token flag, no
token roles are added to it — and `token-auth` is not granted; the
token's roles, however, are appended (prefixed `ROLE_`) to the granted
permissions before the comparison happens. -/
theorem c6_session_wins_but_token_roles_granted
    (roles_as_vec : Option String → Except ErrorResponse (List String))
    (s : Session) (api_key_valid : Bool) (btok : String)
    (validate : String → Except ErrorResponse AccessTokenClaims)
    (roles troles : List String) (claims : AccessTokenClaims)
    (su uid sub : String)
    (hstate : s.state = SessionState.auth)
    (hsu : s.user_id = some su)
    (hrv : roles_as_vec s.roles = .ok roles)
    (hval : validate btok = .ok claims)
    (htroles : claims.custom.roles = some troles)
    (huid : claims.custom.uid = some uid)
    (hsub : claims.subject = some sub)
    (hneq : su ≠ uid) :
    permission_extractor roles_as_vec (some s) api_key_valid (.ok btok) validate =
      .ok (["all", "session-auth"] ++ roles ++ (if api_key_valid then ["api-key"] else [])
          ++ troles.map (fun r => "ROLE_" ++ r),
        some ⟨su, none, s.is_mfa, true, false, roles⟩) := by
  cases api_key_valid <;>
    simp [permission_extractor, hstate, hsu, hrv, hval, htroles, huid, hsub, hneq]

/-- C6 witness: the concrete mismatch scenario resolved through the
amended theorem. -/
theorem c6_witness :
    permission_extractor (fun _ => Except.ok ["r1"]) (some c6_session) true
        (Except.ok "tok") (fun _ => Except.ok c6_claims) =
      Outcome.ok (["all", "session-auth", "r1", "api-key", "ROLE_admin"],
        some ⟨"u1", none, false, true, false, ["r1"]⟩) := by
  have h := c6_session_wins_but_token_roles_granted (fun _ => Except.ok ["r1"]) c6_session true
      "tok" (fun _ => Except.ok c6_claims) ["r1"] ["admin"] c6_claims "u1" "u2" "e@x"
      rfl rfl rfl rfl rfl rfl rfl (by decide)
  simpa using h

/-- The common claims (`JwtCommonClaims`) as `get_token_info` reads
them: the optional `scope`, the `azp`, the JWT `sub` and the expiry in
seconds. -/
structure CommonClaims where
  scope : Option String
  azp : String
  subject : Option String
  expires_at : Option Nat
deriving DecidableEq, Repr

/-- The `TokenInfo` introspection response. -/
structure TokenInfo where
  active : Bool
  scope : Option String
  client_id : Option String
  username : Option String
  exp : Option Nat
deriving DecidableEq, Repr

/-- `get_token_info` (`auth.rs` lines 605-634), applied to the result of
the `validate_token::<JwtCommonClaims>` call on the presented token. A
successful validation without `expires_at` hits the source's `unwrap`
panic. -/
def get_token_info (claims_res : Except ErrorResponse CommonClaims) : Outcome TokenInfo :=
  match claims_res with
  | .error _ => .ok ⟨false, none, none, none, none⟩
  | .ok claims =>
    match claims.expires_at with
    | none => .panicked
    | some exp => .ok ⟨true, claims.scope, some claims.azp, claims.subject, some exp⟩

/-- C9: token introspection never surfaces a validation error: whatever
error `validate_token` produced (bad signature, wrong issuer, kid lookup
or parsing failure), `get_token_info` returns `Ok` with exactly
`active = false` and no scope, client_id, username or exp. -/
theorem c9_introspection_swallows_validation_errors (e : ErrorResponse) :
    get_token_info (.error e) = .ok ⟨false, none, none, none, none⟩ := rfl
